import Mathlib

/-!
Shallow embedding of the keystroke-dynamics authenticator
(`Rythmic-V1.3.py`, with `Rythmic-v1.2.py` sharing the same feature,
aggregation and scoring algorithms).  Python floats are modelled as
rationals; the timing values of interest are exact decimals.
-/

namespace Rythmic

/-- Arithmetic mean of a list, `statistics.mean`.  Callers in the source
only invoke it on non-empty lists (the `n >= 2` extraction guard and
the `if values:` guard in enrollment). -/
def mean (xs : List ℚ) : ℚ := xs.sum / xs.length

/-- Insert a value into an already sorted list, keeping it sorted. -/
def insortQ (x : ℚ) : List ℚ → List ℚ
  | [] => [x]
  | y :: ys => if x ≤ y then x :: y :: ys else y :: insortQ x ys

/-- Insertion sort, modelling the sort performed by `statistics.median`. -/
def sortQ : List ℚ → List ℚ
  | [] => []
  | x :: xs => insortQ x (sortQ xs)

/-- `statistics.median`: middle element of the sorted list for odd length,
average of the two middle elements for even length. -/
def median (xs : List ℚ) : ℚ :=
  let s := sortQ xs
  let n := s.length
  if n % 2 = 1 then s.getD (n / 2) 0
  else (s.getD (n / 2 - 1) 0 + s.getD (n / 2) 0) / 2

/-- Bessel-corrected sample variance, the quantity under the square root
in `statistics.stdev`. -/
def sampleVariance (xs : List ℚ) : ℚ :=
  let m := mean xs
  (xs.map fun x => (x - m) ^ 2).sum / ((xs.length : ℚ) - 1)

/-- Square root on ℚ.  It is exact whenever the argument is the square of
a rational (numerator and denominator of the reduced form are perfect
squares), which covers every concrete evaluation performed below: all
witnesses use constant timing samples, whose variance is 0.  The Python
`statistics.stdev` takes a real square root; none of the verified
properties depends on the value of the square root beyond exactness at
perfect squares. -/
def ratSqrt (q : ℚ) : ℚ := (Nat.sqrt q.num.toNat : ℚ) / (Nat.sqrt q.den : ℚ)

/-- Least element of a list, `min(timings)`; callers guarantee non-empty. -/
def listMin : List ℚ → ℚ
  | [] => 0
  | x :: xs => xs.foldl min x

/-- Greatest element of a list, `max(timings)`; callers guarantee non-empty. -/
def listMax : List ℚ → ℚ
  | [] => 0
  | x :: xs => xs.foldl max x

/-- The six-statistic feature record built by `calculate_timing_features`.
The Python function returns a dict with exactly these six keys whenever it
does not return `None`, so the present/absent distinction is carried by
`Option FeatureVector` at use sites. -/
structure FeatureVector where
  mean : ℚ
  median : ℚ
  stdev : ℚ
  min : ℚ
  max : ℚ
  total_time : ℚ
  deriving DecidableEq

/-- `calculate_timing_features(timings)`: `None` when fewer than two
intervals, otherwise the six statistics.  The inner `if len(timings) > 1`
guard on `stdev` is kept even though the outer guard subsumes it. -/
def calculate_timing_features (timings : List ℚ) : Option FeatureVector :=
  if timings.length < 2 then none
  else some
    { mean := mean timings
      median := median timings
      stdev := if 1 < timings.length then ratSqrt (sampleVariance timings) else 0
      min := listMin timings
      max := listMax timings
      total_time := timings.sum }

/-- One iteration of the scoring loop in `compare_timing_profiles`: the
value appended to `diffs` for a key whose two values are `v1`, `v2` and
whose weight is `w`.  Note the middle branch appends a bare `1`, not
`1 * w`: only the final branch multiplies by the weight. -/
def keyDiff (v1 v2 w : ℚ) : ℚ :=
  if v1 = 0 ∧ v2 = 0 then 0
  else if v1 = 0 ∨ v2 = 0 then 1
  else |v1 - v2| / max v1 v2 * w

/-- The `weights` dict of `compare_timing_profiles`, in insertion order:
the four scored keys paired with their weights (`min`/`max` are stored in
profiles but never scored). -/
def weights : List ((FeatureVector → ℚ) × ℚ) :=
  [(FeatureVector.mean, 0.3), (FeatureVector.median, 0.2),
   (FeatureVector.stdev, 0.2), (FeatureVector.total_time, 0.3)]

/-- `compare_timing_profiles(profile1, profile2)`.  `none` stands for an
empty profile dict (the only falsy value reachable here): either side
empty short-circuits to 0.  Otherwise `total_diff` is the sum of the four
per-key loop contributions and the similarity is `max(0, 1 - total_diff)`. -/
def compare_timing_profiles : Option FeatureVector → Option FeatureVector → ℚ
  | none, _ => 0
  | some _, none => 0
  | some p1, some p2 =>
    let diffs := weights.map fun kw => keyDiff (kw.1 p1) (kw.1 p2) kw.2
    max 0 (1 - diffs.sum)

/-- A stored profile record: a dict with the keys `password`,
`timing_profile` and `password_length`.  The `timing_profile` dict is either empty
(`none`) or carries all six keys (`some`), because
`calculate_timing_features` yields all six statistics or `None`, so the
per-key `if values:` guard in enrollment fills either every key or none. -/
structure Profile where
  password : String
  timing_profile : Option FeatureVector
  password_length : Nat
  deriving DecidableEq

/-- The in-memory `self.profiles` mapping, username to profile. -/
def Profiles : Type := String → Option Profile

/-- The aggregation loop of `enroll_user`: for each feature key, average
that key over the samples whose extraction succeeded.  Extraction is
all-or-nothing across keys, so the resulting dict is empty exactly when
no sample had at least two intervals. -/
def avg_features (all_timings : List (List ℚ)) : Option FeatureVector :=
  let fvs := all_timings.filterMap calculate_timing_features
  if fvs.isEmpty then none
  else some
    { mean := mean (fvs.map FeatureVector.mean)
      median := mean (fvs.map FeatureVector.median)
      stdev := mean (fvs.map FeatureVector.stdev)
      min := mean (fvs.map FeatureVector.min)
      max := mean (fvs.map FeatureVector.max)
      total_time := mean (fvs.map FeatureVector.total_time) }

/-- `enroll_user(username, password, all_timings)`: fewer than 3 samples
is rejected; otherwise the averaged profile is stored unconditionally
(`self.profiles[username] = ...`) and success is reported.  The returned
triple is the updated mapping plus the `(success, message)` pair. -/
def enroll_user (profiles : Profiles) (username password : String)
    (all_timings : List (List ℚ)) : Profiles × Bool × String :=
  if all_timings.length < 3 then (profiles, false, "Need at least 3 samples")
  else
    (fun u => if u = username then
        some { password := password
               timing_profile := avg_features all_timings
               password_length := password.length }
      else profiles u,
     true, "User enrolled successfully")

/-- The `(success, message, similarity)` triple returned by
`authenticate_user`. -/
structure AuthResult where
  success : Bool
  message : String
  similarity : ℚ
  deriving DecidableEq

/-- `authenticate_user(username, password, timings)`: unknown user, then
password check, then feature extraction, then the 0.60 similarity
threshold, in that order.  The method never writes `self.profiles`. -/
def authenticate_user (profiles : Profiles) (username password : String)
    (timings : List ℚ) : AuthResult :=
  match profiles username with
  | none => ⟨false, "User not found", 0⟩
  | some profile =>
    if password ≠ profile.password then ⟨false, "Incorrect password", 0⟩
    else
      match calculate_timing_features timings with
      | none => ⟨false, "Insufficient timing data", 0⟩
      | some current =>
        let similarity := compare_timing_profiles profile.timing_profile (some current)
        if (0.60 : ℚ) ≤ similarity then ⟨true, "Authentication successful", similarity⟩
        else ⟨false, "Typing pattern mismatch", similarity⟩

/-- `delete_user(username)`: remove the entry if present, report whether
a deletion happened. -/
def delete_user (profiles : Profiles) (username : String) : Profiles × Bool :=
  match profiles username with
  | some _ => (fun u => if u = username then none else profiles u, true)
  | none => (profiles, false)

/-- The `/api/enroll` route handler: missing username or password is
rejected first, then an existing username is rejected with
"User already exists" before `enroll_user` runs. -/
def enroll (profiles : Profiles) (username password : String)
    (all_timings : List (List ℚ)) : Profiles × Bool × String :=
  if username = "" ∨ password = "" then
    (profiles, false, "Username and password required")
  else if (profiles username).isSome then
    (profiles, false, "User already exists")
  else enroll_user profiles username password all_timings

/-- The per-key contribution formula asserted by the specification text,
which multiplies the normalized difference of every branch — including the
exactly-one-value-zero branch — by the weight of the key.  Stated only to be
compared against the implemented loop body `keyDiff`, whose middle branch
appends a bare `1`. -/
def keyDiffClaim (v1 v2 w : ℚ) : ℚ :=
  if v1 = 0 ∧ v2 = 0 then 0
  else if v1 = 0 ∨ v2 = 0 then 1 * w
  else |v1 - v2| / max v1 v2 * w

/-- The scoring function the specification describes: identical to
`compare_timing_profiles` except that every per-key contribution is
weighted. -/
def compare_claim_weighted (p1 p2 : FeatureVector) : ℚ :=
  max 0 (1 - ((weights.map fun kw => keyDiffClaim (kw.1 p1) (kw.1 p2) kw.2).sum))

/-- A concrete enrolled profile used by the closed witness theorems. -/
def aliceProfile : Profile :=
  { password := "hunter2"
    timing_profile := some ⟨0.1, 0.1, 0, 0.1, 0.1, 0.2⟩
    password_length := 7 }

/-- A concrete profile whose `timing_profile` dict is empty, as produced
by enrolling with samples that all have fewer than two intervals. -/
def bobProfile : Profile :=
  { password := "pw", timing_profile := none, password_length := 2 }

/-- A concrete profile store holding `alice` and `bob`. -/
def demoProfiles : Profiles := fun u =>
  if u = "alice" then some aliceProfile
  else if u = "bob" then some bobProfile
  else none

/-- One service request, as dispatched by the route handlers: an
enrollment, an authentication, or a deletion, each naming the username it
operates on. -/
inductive Op where
  | enrollOp (username password : String) (all_timings : List (List ℚ))
  | authOp (username password : String) (timings : List ℚ)
  | deleteOp (username : String)

/-- The username an operation targets. -/
def opUser : Op → String
  | .enrollOp u _ _ => u
  | .authOp u _ _ => u
  | .deleteOp u => u

/-- The profile map after one service call.  `enroll_user` and
`delete_user` return their updated map; `authenticate_user` never writes
`self.profiles` in the source, so an authentication leaves the map as it
was. -/
def runOp (profiles : Profiles) : Op → Profiles
  | .enrollOp u pw ts => (enroll_user profiles u pw ts).1
  | .authOp _ _ _ => profiles
  | .deleteOp u => (delete_user profiles u).1

end Rythmic

namespace Rythmic

/-- A key compared with itself contributes nothing to `total_diff`. -/
theorem keyDiff_self (a w : ℚ) : keyDiff a a w = 0 := by
  unfold keyDiff
  by_cases h : a = 0
  · simp [h]
  · simp [h]

/-- The loop contribution for one key does not depend on which profile is
first: every branch condition and formula is symmetric in the two values. -/
theorem keyDiff_comm (a b w : ℚ) : keyDiff a b w = keyDiff b a w := by
  unfold keyDiff
  rw [abs_sub_comm, max_comm]
  exact if_congr and_comm rfl (if_congr or_comm rfl rfl)

/-- With non-negative values and a non-negative weight, each loop
contribution is non-negative. -/
theorem keyDiff_nonneg {a b w : ℚ} (ha : 0 ≤ a) (_hb : 0 ≤ b) (hw : 0 ≤ w) :
    0 ≤ keyDiff a b w := by
  unfold keyDiff
  by_cases h1 : a = 0 ∧ b = 0
  · simp [h1]
  · rw [if_neg h1]
    by_cases h2 : a = 0 ∨ b = 0
    · rw [if_pos h2]
      norm_num
    · rw [if_neg h2]
      push_neg at h2
      have hpos : (0 : ℚ) < max a b :=
        lt_max_iff.mpr (Or.inl (ha.lt_of_ne (Ne.symm h2.1)))
      exact mul_nonneg (div_nonneg (abs_nonneg _) hpos.le) hw

/-- C6: for every feature vector `F`, comparing `F` with itself yields
similarity exactly 1: each of the four per-key contributions vanishes, so
`total_diff = 0` and `max(0, 1 - 0) = 1`.  (The claim assumes non-negative
non-degenerate values; the identity in fact holds for every `F`.) -/
theorem score_self_eq_one (F : FeatureVector) :
    compare_timing_profiles (some F) (some F) = 1 := by
  simp only [compare_timing_profiles, weights, List.map_cons, List.map_nil,
    List.sum_cons, List.sum_nil, keyDiff_self]
  norm_num

/-- C7: the similarity score is symmetric in its two arguments, for empty
and non-empty profiles alike, because `abs` and `max` and the zero-branch
conditions are all symmetric. -/
theorem score_symm (p1 p2 : Option FeatureVector) :
    compare_timing_profiles p1 p2 = compare_timing_profiles p2 p1 := by
  cases p1 with
  | none => cases p2 <;> rfl
  | some q1 =>
    cases p2 with
    | none => rfl
    | some q2 =>
      simp only [compare_timing_profiles, weights, List.map_cons, List.map_nil,
        List.sum_cons, List.sum_nil]
      rw [keyDiff_comm q1.mean, keyDiff_comm q1.median, keyDiff_comm q1.stdev,
        keyDiff_comm q1.total_time]

/-- C5: for feature vectors with non-negative entries, the similarity is
clamped below by 0 (the `max(0, ...)`) and never exceeds 1 (each weighted
difference is non-negative, so `1 - total_diff ≤ 1`). -/
theorem score_bounded (p1 p2 : FeatureVector)
    (h1 : 0 ≤ p1.mean ∧ 0 ≤ p1.median ∧ 0 ≤ p1.stdev ∧ 0 ≤ p1.min ∧
      0 ≤ p1.max ∧ 0 ≤ p1.total_time)
    (h2 : 0 ≤ p2.mean ∧ 0 ≤ p2.median ∧ 0 ≤ p2.stdev ∧ 0 ≤ p2.min ∧
      0 ≤ p2.max ∧ 0 ≤ p2.total_time) :
    0 ≤ compare_timing_profiles (some p1) (some p2) ∧
      compare_timing_profiles (some p1) (some p2) ≤ 1 := by
  simp only [compare_timing_profiles, weights, List.map_cons, List.map_nil,
    List.sum_cons, List.sum_nil, add_zero]
  refine ⟨le_max_left _ _, max_le (by norm_num) ?_⟩
  have d1 := keyDiff_nonneg h1.1 h2.1 (by norm_num : (0 : ℚ) ≤ 0.3)
  have d2 := keyDiff_nonneg h1.2.1 h2.2.1 (by norm_num : (0 : ℚ) ≤ 0.2)
  have d3 := keyDiff_nonneg h1.2.2.1 h2.2.2.1 (by norm_num : (0 : ℚ) ≤ 0.2)
  have d4 := keyDiff_nonneg h1.2.2.2.2.2 h2.2.2.2.2.2 (by norm_num : (0 : ℚ) ≤ 0.3)
  linarith

/-- Witness for `score_bounded` at two concrete feature vectors. -/
theorem score_bounded_witness :
    0 ≤ compare_timing_profiles (some ⟨1, 2, 3, 4, 5, 6⟩) (some ⟨6, 5, 4, 3, 2, 1⟩) ∧
      compare_timing_profiles (some ⟨1, 2, 3, 4, 5, 6⟩) (some ⟨6, 5, 4, 3, 2, 1⟩) ≤ 1 :=
  score_bounded ⟨1, 2, 3, 4, 5, 6⟩ ⟨6, 5, 4, 3, 2, 1⟩ (by norm_num) (by norm_num)

/-- C1 (counterexample): at the concrete profiles `⟨1, 1, 0, 0, 0, 1⟩` and
`⟨1, 1, 1, 0, 0, 1⟩` (only the `stdev` key differs, with exactly one of
the two values zero), the implemented score is 0, while the claimed
always-weighted contribution rule would give `1 - 0.2 * 1 = 4/5`: the
zero branch appends an unweighted 1, so the claim is false on the code. -/
theorem score_zero_branch_unweighted_cex :
    compare_timing_profiles (some ⟨1, 1, 0, 0, 0, 1⟩) (some ⟨1, 1, 1, 0, 0, 1⟩) = 0 ∧
      compare_claim_weighted ⟨1, 1, 0, 0, 0, 1⟩ ⟨1, 1, 1, 0, 0, 1⟩ = 4 / 5 ∧
      compare_timing_profiles (some ⟨1, 1, 0, 0, 0, 1⟩) (some ⟨1, 1, 1, 0, 0, 1⟩) ≠
        compare_claim_weighted ⟨1, 1, 0, 0, 0, 1⟩ ⟨1, 1, 1, 0, 0, 1⟩ := by
  refine ⟨?_, ?_, ?_⟩ <;>
    norm_num [compare_timing_profiles, compare_claim_weighted, weights,
      keyDiff, keyDiffClaim]

/-- C1 (amended): `total_diff` is the sum of the four per-key loop
contributions in the fixed key order, and the contribution rule is: both
values zero contributes 0; exactly one value zero contributes an
unweighted 1 (the weight is not applied in this branch); otherwise the
normalized difference `|a - b| / max(a, b)` multiplied by the weight of
the key. -/
theorem score_per_key_contribution (p1 p2 : FeatureVector) :
    compare_timing_profiles (some p1) (some p2) =
      max 0 (1 - (keyDiff p1.mean p2.mean 0.3 + (keyDiff p1.median p2.median 0.2 +
        (keyDiff p1.stdev p2.stdev 0.2 + keyDiff p1.total_time p2.total_time 0.3)))) ∧
    (∀ a b w : ℚ, ¬a = 0 → ¬b = 0 → keyDiff a b w = |a - b| / max a b * w) ∧
    (∀ a b w : ℚ, a = 0 → ¬b = 0 → keyDiff a b w = 1) ∧
    (∀ a b w : ℚ, ¬a = 0 → b = 0 → keyDiff a b w = 1) ∧
    (∀ w : ℚ, keyDiff 0 0 w = 0) := by
  refine ⟨?_, ?_, ?_, ?_, ?_⟩
  · simp only [compare_timing_profiles, weights, List.map_cons, List.map_nil,
      List.sum_cons, List.sum_nil, add_zero]
  · intro a b w ha hb
    simp [keyDiff, ha, hb]
  · intro a b w ha hb
    simp [keyDiff, ha, hb]
  · intro a b w ha hb
    simp [keyDiff, ha, hb]
  · intro w
    simp [keyDiff]

/-- Witness for `score_per_key_contribution`: each branch of the
contribution rule evaluated at concrete values, through the theorem. -/
theorem score_per_key_contribution_witness :
    keyDiff 0 2 5 = 1 ∧ keyDiff 3 0 5 = 1 ∧
      keyDiff 1 2 (1 / 2) = |(1 : ℚ) - 2| / max 1 2 * (1 / 2) ∧
      keyDiff 0 0 7 = 0 :=
  ⟨(score_per_key_contribution ⟨0, 0, 0, 0, 0, 0⟩ ⟨0, 0, 0, 0, 0, 0⟩).2.2.1 0 2 5 rfl
      (by norm_num),
   (score_per_key_contribution ⟨0, 0, 0, 0, 0, 0⟩ ⟨0, 0, 0, 0, 0, 0⟩).2.2.2.1 3 0 5
      (by norm_num) rfl,
   (score_per_key_contribution ⟨0, 0, 0, 0, 0, 0⟩ ⟨0, 0, 0, 0, 0, 0⟩).2.1 1 2 (1 / 2)
      (by norm_num) (by norm_num),
   (score_per_key_contribution ⟨0, 0, 0, 0, 0, 0⟩ ⟨0, 0, 0, 0, 0, 0⟩).2.2.2.2 7⟩

/-- Extraction yields nothing for a sample with fewer than two intervals. -/
theorem calculate_timing_features_short {t : List ℚ} (h : t.length < 2) :
    calculate_timing_features t = none := by
  unfold calculate_timing_features
  rw [if_pos h]

/-- When every sample has fewer than two intervals, the aggregation loop
fills no key: the resulting `timing_profile` dict is empty. -/
theorem avg_features_all_short {ts : List (List ℚ)}
    (hshort : ∀ s ∈ ts, s.length < 2) : avg_features ts = none := by
  have hnil : ts.filterMap calculate_timing_features = [] := by
    rw [List.filterMap_eq_nil_iff]
    intro s hs
    exact calculate_timing_features_short (hshort s hs)
  unfold avg_features
  rw [hnil]
  rfl

/-- C2 (counterexample): enrolling a fresh user with exactly three
samples of one interval each returns success with message
"User enrolled successfully" and stores a profile (with an empty
`timing_profile`) under the username — enrollment does not fail and a
profile is created, contradicting the claim. -/
theorem enroll_all_short_samples_cex :
    (enroll_user (fun _ => none) "u" "pw" [[1], [1], [1]]).2 =
      (true, "User enrolled successfully") ∧
    (enroll_user (fun _ => none) "u" "pw" [[1], [1], [1]]).1 "u" =
      some { password := "pw", timing_profile := none, password_length := 2 } := by
  constructor
  · rfl
  · rfl

/-- C2 (amended): an enrollment call with at least 3 samples in which
every sample has fewer than 2 intervals still succeeds: it returns
`(True, "User enrolled successfully")` and stores a profile for the
username whose `timing_profile` is the empty dict (and whose password
fields are as supplied).  No failure state is reached. -/
theorem enroll_all_short_samples (profiles : Profiles) (u pw : String)
    (ts : List (List ℚ)) (h3 : 3 ≤ ts.length) (hshort : ∀ s ∈ ts, s.length < 2) :
    (enroll_user profiles u pw ts).2 = (true, "User enrolled successfully") ∧
    (enroll_user profiles u pw ts).1 u =
      some { password := pw, timing_profile := none, password_length := pw.length } := by
  have hlen : ¬ts.length < 3 := by omega
  unfold enroll_user
  rw [if_neg hlen]
  refine ⟨rfl, ?_⟩
  simp [avg_features_all_short hshort]

/-- Witness for `enroll_all_short_samples` at a concrete call. -/
theorem enroll_all_short_samples_witness :
    (enroll_user demoProfiles "carol" "secret" [[1], [2], [3]]).2 =
      (true, "User enrolled successfully") ∧
    (enroll_user demoProfiles "carol" "secret" [[1], [2], [3]]).1 "carol" =
      some { password := "secret", timing_profile := none, password_length := 6 } :=
  enroll_all_short_samples demoProfiles "carol" "secret" [[1], [2], [3]]
    (by norm_num) (by norm_num)

/-- C3: for an enrolled user, with the stored password supplied and a
sample of at least two intervals, authentication succeeds exactly when
the computed similarity is at least 0.60; below the threshold the result
is a rejection with message "Typing pattern mismatch" carrying the
computed similarity, and at or above it an acceptance carrying the same
similarity. -/
theorem authenticate_threshold_correct (profiles : Profiles) (u pw : String)
    (prof : Profile) (t : List ℚ) (hu : profiles u = some prof)
    (hpw : pw = prof.password) (ht : 2 ≤ t.length) :
    ((authenticate_user profiles u pw t).success = true ↔
      (0.60 : ℚ) ≤ compare_timing_profiles prof.timing_profile
        (calculate_timing_features t)) ∧
    ((0.60 : ℚ) ≤ compare_timing_profiles prof.timing_profile
        (calculate_timing_features t) →
      authenticate_user profiles u pw t =
        ⟨true, "Authentication successful",
          compare_timing_profiles prof.timing_profile (calculate_timing_features t)⟩) ∧
    (compare_timing_profiles prof.timing_profile (calculate_timing_features t) < 0.60 →
      authenticate_user profiles u pw t =
        ⟨false, "Typing pattern mismatch",
          compare_timing_profiles prof.timing_profile (calculate_timing_features t)⟩) := by
  have hne : ¬t.length < 2 := by omega
  obtain ⟨R, hcalc⟩ : ∃ R, calculate_timing_features t = some R := by
    unfold calculate_timing_features
    rw [if_neg hne]
    exact ⟨_, rfl⟩
  rw [hcalc]
  unfold authenticate_user
  rw [hu]
  dsimp only
  rw [if_neg fun h => h hpw, hcalc]
  dsimp only
  by_cases hth : (0.60 : ℚ) ≤ compare_timing_profiles prof.timing_profile (some R)
  · rw [if_pos hth]
    exact ⟨by simp [hth], fun _ => rfl, fun hlt => absurd hth (not_le.mpr hlt)⟩
  · rw [if_neg hth]
    exact ⟨by simp [hth], fun hge => absurd hge hth, fun _ => rfl⟩

/-- Witness for `authenticate_threshold_correct`: `alice` authenticating
with her password and a sample matching her reference profile is
accepted with similarity 1. -/
theorem authenticate_threshold_correct_witness :
    authenticate_user demoProfiles "alice" "hunter2" [0.1, 0.1] =
      ⟨true, "Authentication successful", 1⟩ := by
  have h := authenticate_threshold_correct demoProfiles "alice" "hunter2" aliceProfile
    [0.1, 0.1] (by rfl) (by rfl) (by norm_num)
  have hsim : compare_timing_profiles aliceProfile.timing_profile
      (calculate_timing_features [0.1, 0.1]) = 1 := by
    norm_num [aliceProfile, calculate_timing_features, mean, median, sortQ, insortQ,
      ratSqrt, sampleVariance, listMin, listMax, compare_timing_profiles, weights, keyDiff]
  rw [h.2.1 (by rw [hsim]; norm_num), hsim]

/-- C4: with a wrong password for an enrolled user, authentication is
rejected with "Incorrect password" and similarity 0, and the outcome is
the same for every pair of timing samples: the sample never reaches the
scorer. -/
theorem wrong_password_rejected (profiles : Profiles) (u pw : String)
    (prof : Profile) (t1 t2 : List ℚ) (hu : profiles u = some prof)
    (hpw : pw ≠ prof.password) :
    authenticate_user profiles u pw t1 = ⟨false, "Incorrect password", 0⟩ ∧
      authenticate_user profiles u pw t1 = authenticate_user profiles u pw t2 := by
  have h : ∀ t : List ℚ,
      authenticate_user profiles u pw t = ⟨false, "Incorrect password", 0⟩ := by
    intro t
    unfold authenticate_user
    rw [hu]
    dsimp only
    rw [if_pos hpw]
  exact ⟨h t1, (h t1).trans (h t2).symm⟩

/-- Witness for `wrong_password_rejected`: wrong password for `alice`,
compared across an empty sample and a non-trivial one. -/
theorem wrong_password_rejected_witness :
    authenticate_user demoProfiles "alice" "letmein" [] =
      ⟨false, "Incorrect password", 0⟩ ∧
      authenticate_user demoProfiles "alice" "letmein" [] =
        authenticate_user demoProfiles "alice" "letmein" [0.1, 0.2, 0.3] :=
  wrong_password_rejected demoProfiles "alice" "letmein" aliceProfile []
    [0.1, 0.2, 0.3] (by rfl) (by decide)

/-- C9: a user whose stored `timing_profile` is the empty dict is always
rejected on a correct-password attempt with at least two intervals: the
scorer fails fast to 0 on the empty reference, 0 is below the 0.60
threshold, and the result is "Typing pattern mismatch" with similarity 0. -/
theorem empty_profile_never_accepted (profiles : Profiles) (u pw : String)
    (prof : Profile) (t : List ℚ) (hu : profiles u = some prof)
    (hempty : prof.timing_profile = none) (hpw : pw = prof.password)
    (ht : 2 ≤ t.length) :
    authenticate_user profiles u pw t = ⟨false, "Typing pattern mismatch", 0⟩ := by
  have hne : ¬t.length < 2 := by omega
  obtain ⟨R, hcalc⟩ : ∃ R, calculate_timing_features t = some R := by
    unfold calculate_timing_features
    rw [if_neg hne]
    exact ⟨_, rfl⟩
  unfold authenticate_user
  rw [hu]
  dsimp only
  rw [if_neg fun h => h hpw, hcalc]
  dsimp only
  rw [hempty]
  norm_num [compare_timing_profiles]

/-- Witness for `empty_profile_never_accepted`: `bob` (enrolled with an
empty timing profile) is rejected despite the correct password. -/
theorem empty_profile_never_accepted_witness :
    authenticate_user demoProfiles "bob" "pw" [1, 1] =
      ⟨false, "Typing pattern mismatch", 0⟩ :=
  empty_profile_never_accepted demoProfiles "bob" "pw" bobProfile [1, 1]
    (by rfl) (by rfl) (by rfl) (by norm_num)

/-- C8: the enroll route rejects a username that already holds a profile
with "User already exists" and returns the profile map unchanged, so the
existing profile is untouched. -/
theorem enroll_route_duplicate (profiles : Profiles) (u pw : String)
    (ts : List (List ℚ)) (prof : Profile) (hu : u ≠ "") (hpw : pw ≠ "")
    (hdup : profiles u = some prof) :
    enroll profiles u pw ts = (profiles, false, "User already exists") := by
  unfold enroll
  rw [if_neg (by simp [hu, hpw]), if_pos (by rw [hdup]; rfl)]

/-- Witness for `enroll_route_duplicate`: re-enrolling `alice` is
rejected and the store (hence her stored profile) is unchanged. -/
theorem enroll_route_duplicate_witness :
    enroll demoProfiles "alice" "newpw" [[1, 2], [1, 2], [1, 2]] =
      (demoProfiles, false, "User already exists") ∧
      (enroll demoProfiles "alice" "newpw" [[1, 2], [1, 2], [1, 2]]).1 "alice" =
        some aliceProfile := by
  have h := enroll_route_duplicate demoProfiles "alice" "newpw"
    [[1, 2], [1, 2], [1, 2]] aliceProfile (by decide) (by decide) (by rfl)
  exact ⟨h, by rw [h]; rfl⟩

/-- C10: a service call that targets username `u` leaves the stored
entry of every other username `v` exactly as it was: enrollment and
deletion update only their own key, and authentication never writes the
map at all. -/
theorem op_frame (profiles : Profiles) (op : Op) (v : String)
    (hv : v ≠ opUser op) : runOp profiles op v = profiles v := by
  cases op with
  | enrollOp u pw ts =>
    simp only [opUser] at hv
    show (enroll_user profiles u pw ts).1 v = profiles v
    unfold enroll_user
    split
    · rfl
    · dsimp only
      rw [if_neg hv]
  | authOp u pw t => rfl
  | deleteOp u =>
    simp only [opUser] at hv
    show (delete_user profiles u).1 v = profiles v
    unfold delete_user
    cases h : profiles u with
    | none => dsimp only
    | some prof =>
      dsimp only
      rw [if_neg hv]

/-- Witness for `op_frame`: enrolling `carol`, authenticating `bob` and
deleting `bob` all leave the stored profile of `alice` intact. -/
theorem op_frame_witness :
    runOp demoProfiles (Op.enrollOp "carol" "pw" [[1, 2], [1, 2], [1, 2]]) "alice" =
      demoProfiles "alice" ∧
    runOp demoProfiles (Op.authOp "bob" "pw" [1, 1]) "alice" = demoProfiles "alice" ∧
    runOp demoProfiles (Op.deleteOp "bob") "alice" = demoProfiles "alice" ∧
    demoProfiles "alice" = some aliceProfile :=
  ⟨op_frame demoProfiles (Op.enrollOp "carol" "pw" [[1, 2], [1, 2], [1, 2]]) "alice"
      (by decide),
   op_frame demoProfiles (Op.authOp "bob" "pw" [1, 1]) "alice" (by decide),
   op_frame demoProfiles (Op.deleteOp "bob") "alice" (by decide),
   rfl⟩

end Rythmic
